import Mathlib

/-!
# Verification of the stock-dashboard client orchestration layer

Shallow embedding of `src/frontend/script.js` (a browser client for a stock
data service) and proofs about its data derivations, selection state
transitions, fetch-join behaviour and chart lifecycle.

Modelling conventions:
* JS numbers are modelled as `ℚ` (the claims are about exact arithmetic
  identities on finite values).
* Optionally-absent JSON fields are `Option ℚ`.
* A `fetch` that rejects (network failure or unparseable body) is
  `Except.error ()`; a resolved fetch is `Except.ok v`.
* DOM side effects are modelled as explicit state records and lists of
  issued network requests.
-/

namespace StockDash

/-- Domain model: a company row from `GET /companies`
(`{symbol, name, sector}`, script.js uses exactly these fields). -/
structure Company where
  symbol : String
  name : String
  sector : String
deriving DecidableEq, Repr

/-- Domain model: one point of a symbol's time series from `GET /data/{symbol}`.
`moving_avg_7` and `daily_return` may be absent (script.js guards on them). -/
structure StockPoint where
  date : String
  close : ℚ
  moving_avg_7 : Option ℚ
  daily_return : Option ℚ
deriving DecidableEq, Repr

/-- Domain model: the summary from `GET /summary/{symbol}`; every numeric
field may be absent (script.js renders a placeholder for absent fields). -/
structure StockSummary where
  symbol : String
  current_price : Option ℚ
  daily_return : Option ℚ
  week52_high : Option ℚ
  week52_low : Option ℚ
  average_close : Option ℚ
  volatility : Option ℚ
deriving DecidableEq, Repr

/-- Domain model: the result of `GET /compare` as consumed by
`displayComparison`: a pair of symbols, a correlation, a per-symbol
performance mapping and the period in days. -/
structure Comparison where
  stocks : String × String
  correlation : ℚ
  performance : String → ℚ
  period_days : ℕ

/-- A network request the client can issue (the endpoints of §6 that the
modelled handlers touch). -/
inductive Request where
  | companies : Request
  | data (symbol : String) (days : ℕ) : Request
  | summary (symbol : String) : Request
  | topGainers : Request
  | topLosers : Request
  | compare (symbol1 symbol2 : String) (days : ℕ) : Request
deriving DecidableEq, Repr

/-! ## Series derivation (pure functions out of `updateCharts` and
`displayComparison`) -/

/-- From script.js line 204:
`stockData.map(d => d.daily_return ? d.daily_return * 100 : 0)`.
JS truthiness: an absent `daily_return` and a present value `0` are both
falsy, so both map to `0`; any other value is scaled to percent. -/
def toReturnSeries (points : List StockPoint) : List ℚ :=
  points.map (fun p =>
    match p.daily_return with
    | none => 0
    | some r => if r = 0 then 0 else r * 100)

/-- From script.js lines 412-415 inside `displayComparison`:
`const base1 = prices1[0]; const normalized1 = prices1.map(p => ((p - base1) / base1) * 100)`.
On the empty list the `map` produces the empty list (the undefined base is
never consumed). -/
def normalizeForComparison (prices : List ℚ) : List ℚ :=
  match prices with
  | [] => []
  | p0 :: rest => (p0 :: rest).map (fun p => (p - p0) / p0 * 100)

/-- From script.js line 384:
`comparison.performance[comparison.stocks[0]] - comparison.performance[comparison.stocks[1]]`. -/
def performanceDifferential (c : Comparison) : ℚ :=
  c.performance c.stocks.1 - c.performance c.stocks.2

/-- Swap the two compared stocks of a `Comparison` (the input with
`symbol1` and `symbol2` exchanged). -/
def swapStocks (c : Comparison) : Comparison :=
  { c with stocks := (c.stocks.2, c.stocks.1) }

/-! ## Company filtering (`filterCompanies`, script.js lines 114-129) -/

/-- Character-list prefix test (`==` on chars), the base step of the
substring test used to model JS `String.prototype.includes`. -/
def hasPrefixChars : List Char → List Char → Bool
  | [], _ => true
  | _ :: _, [] => false
  | p :: ps, c :: cs => p == c && hasPrefixChars ps cs

/-- Character-list substring test: does `pat` occur contiguously in `l`?
Models JS `String.prototype.includes`. -/
def hasSubstrChars (pat : List Char) : List Char → Bool
  | [] => pat.isEmpty
  | c :: cs => hasPrefixChars pat (c :: cs) || hasSubstrChars pat cs

/-- Character-wise lowercasing, the effect of JS `toLowerCase()` on the
ASCII company strings (Lean's `String.toLower` is exactly this map). -/
def toLowerChars (l : List Char) : List Char :=
  l.map Char.toLower

/-- Case-insensitive containment: script.js lowercases both the search term
and the displayed text before calling `includes`. -/
def containsCI (hay term : String) : Bool :=
  hasSubstrChars (toLowerChars term.toList) (toLowerChars hay.toList)

/-- Remove the first occurrence of `pat` from `s`, the semantics of JS
`s.replace(pat, '')` for a plain-string pattern (script.js strips the
`.NS` exchange suffix this way, line 85). -/
def removeFirstChars (pat : List Char) : List Char → List Char
  | [] => []
  | c :: cs =>
    if hasPrefixChars pat (c :: cs) then (c :: cs).drop pat.length
    else c :: removeFirstChars pat cs

/-- `company.symbol.replace('.NS', '')` — the stripped symbol shown in the
`.company-symbol` element and hence the text `filterCompanies` matches on. -/
def stripNS (s : String) : String :=
  String.mk (removeFirstChars ".NS".toList s.toList)

/-- The per-company test of `filterCompanies` (script.js line 123): the
displayed name, stripped symbol, or sector contains the search term,
case-insensitively. -/
def matchesSearch (term : String) (c : Company) : Bool :=
  containsCI c.name term || containsCI (stripNS c.symbol) term || containsCI c.sector term

/-- `filterCompanies` sets `display:block` on matching company items and
`display:none` on the rest; the visible sublist is the model's result. -/
def filterCompanies (term : String) (cs : List Company) : List Company :=
  cs.filter (matchesSearch term)

/-! ## The fetch join of `loadStockData` (script.js lines 151-172)

`loadStockData` issues the series fetch and the summary fetch together via
`Promise.all` and awaits the pair inside one `try`: if either awaited
operation rejects, control jumps to the shared `catch`, which writes an
inline error message into `selectedStockInfo`; only when both resolve do
`updateStockInfo`, `updateCharts` and `updateMetrics` run. -/

/-- The view-updates performed by one completed `loadStockData` run:
which series the charts were (re)drawn from, which summary the info panel
and metric tiles were filled from, and whether the inline error message
replaced the stock-info panel. -/
structure LoadView where
  chartsRendered : Option (List StockPoint)
  summaryRendered : Option StockSummary
  errorShown : Bool
deriving DecidableEq, Repr

/-- The join discipline of `loadStockData`: `Promise.all` of the two
fetches inside one `try/catch`. Both must resolve for any rendering to
happen; a single rejection routes to the `catch` branch. -/
def loadStockDataJoin (dataRes : Except Unit (List StockPoint))
    (sumRes : Except Unit StockSummary) : LoadView :=
  match dataRes, sumRes with
  | .ok d, .ok s => ⟨some d, some s, false⟩
  | .ok _, .error _ => ⟨none, none, true⟩
  | .error _, .ok _ => ⟨none, none, true⟩
  | .error _, .error _ => ⟨none, none, true⟩

/-! ## Stale responses across overlapping `loadStockData` calls

`loadStockData` sets `currentStock = symbol` at entry and, when its awaited
fetches resolve, commits the results to the view unconditionally — there is
no check that `symbol` still equals `currentStock` at commit time.
Interleaving of two overlapping calls is modelled as an event trace. -/

/-- Module-level selection/view state: `currentStock` (script.js line 3)
and which symbol's data the stock panel currently renders. -/
structure DashState where
  currentStock : Option String
  renderedSymbol : Option String
deriving DecidableEq, Repr

/-- Suspension-point events of overlapping `loadStockData` runs:
`select s` is the synchronous prefix of `loadStockData(s)` (sets
`currentStock`, issues the fetches); `fetchResolved s` is the resumption
after `await`, which commits `s`'s results to the view. -/
inductive DashEvent where
  | select (s : String) : DashEvent
  | fetchResolved (s : String) : DashEvent
deriving DecidableEq, Repr

/-- One event step. The `fetchResolved` branch mirrors the source exactly:
the commit happens with no staleness guard. -/
def stepDash (st : DashState) : DashEvent → DashState
  | .select s => { st with currentStock := some s }
  | .fetchResolved s => { st with renderedSymbol := some s }

/-- Run a trace of events from a state. -/
def runDash (st : DashState) : List DashEvent → DashState
  | [] => st
  | e :: es => runDash (stepDash st e) es

/-! ## Chart lifecycle (`updateCharts`, script.js lines 199-299;
`displayComparison`, lines 394-396)

Chart objects are modelled by numeric ids; `livePrice`/`liveReturns`/
`liveComparison` hold the constructed-and-not-destroyed chart objects of
each slot, and `priceVar`/`returnsVar`/`comparisonVar` model the JS
globals `priceChart`/`returnsChart`/`comparisonChart` (which keep pointing
at a destroyed chart until reassigned). -/

/-- Chart-slot state of the page. `nextId` supplies the id of the next
`new Chart(...)`. -/
structure ChartState where
  priceVar : Option ℕ
  returnsVar : Option ℕ
  comparisonVar : Option ℕ
  livePrice : List ℕ
  liveReturns : List ℕ
  liveComparison : List ℕ
  comparisonOpen : Bool
  nextId : ℕ
deriving DecidableEq, Repr

/-- `if (chartVar) { chartVar.destroy(); }` — destroy the chart the global
points at, if any: remove it from the slot's live list. -/
def destroyIfLive (v : Option ℕ) (live : List ℕ) : List ℕ :=
  match v with
  | none => live
  | some id => live.erase id

/-- `updateCharts` statement 1 (lines 209-211): destroy the old price chart. -/
def updateStep1 (st : ChartState) : ChartState :=
  { st with livePrice := destroyIfLive st.priceVar st.livePrice }

/-- `updateCharts` statement 2 (line 213): `priceChart = new Chart(...)`. -/
def updateStep2 (st : ChartState) : ChartState :=
  { st with livePrice := st.nextId :: st.livePrice
            priceVar := some st.nextId
            nextId := st.nextId + 1 }

/-- `updateCharts` statement 3 (lines 265-267): destroy the old returns chart. -/
def updateStep3 (st : ChartState) : ChartState :=
  { st with liveReturns := destroyIfLive st.returnsVar st.liveReturns }

/-- `updateCharts` statement 4 (line 269): `returnsChart = new Chart(...)`. -/
def updateStep4 (st : ChartState) : ChartState :=
  { st with liveReturns := st.nextId :: st.liveReturns
            returnsVar := some st.nextId
            nextId := st.nextId + 1 }

/-- One full `updateCharts` call: destroy price, create price, destroy
returns, create returns — in source order. -/
def updateCharts (st : ChartState) : ChartState :=
  updateStep4 (updateStep3 (updateStep2 (updateStep1 st)))

/-- The observable intermediate states of one `updateCharts` call (after
each of its four chart-mutating statements). -/
def updateChartsTrace (st : ChartState) : List ChartState :=
  [updateStep1 st, updateStep2 (updateStep1 st),
   updateStep3 (updateStep2 (updateStep1 st)), updateCharts st]

/-- Slot sanity: the live charts of a slot are either none, or exactly the
one the slot's global variable refers to. -/
def slotOk (v : Option ℕ) (live : List ℕ) : Prop :=
  live = [] ∨ live = v.toList

instance (v : Option ℕ) (live : List ℕ) : Decidable (slotOk v live) :=
  inferInstanceAs (Decidable (live = [] ∨ live = v.toList))

/-- All three chart slots are sane. Holds initially (all globals `null`, no
chart constructed) and is preserved by every render call. -/
def goodChartState (st : ChartState) : Prop :=
  slotOk st.priceVar st.livePrice ∧ slotOk st.returnsVar st.liveReturns ∧
    slotOk st.comparisonVar st.liveComparison

instance (st : ChartState) : Decidable (goodChartState st) :=
  inferInstanceAs (Decidable (_ ∧ _ ∧ _))

/-- Page-load chart state (script.js lines 4-6: all three globals `null`). -/
def initChartState : ChartState :=
  ⟨none, none, none, [], [], [], false, 0⟩

/-! ## `displayComparison` and `compareStocks` (script.js lines 360-464) -/

/-- The chart-state effect of `displayComparison`: show the comparison
section, destroy the previous comparison chart if any, construct the new
one (lines 388-396 and 417). -/
def displayComparisonState (st : ChartState) : ChartState :=
  { st with comparisonOpen := true
            liveComparison := st.nextId :: destroyIfLive st.comparisonVar st.liveComparison
            comparisonVar := some st.nextId
            nextId := st.nextId + 1 }

/-- `compareStocks` (lines 360-378): reads the dropdown value; if no stock
is selected or the dropdown holds the empty "None" value, alerts and
returns before any fetch; otherwise fetches `/compare` and, on success,
runs `displayComparison` (on failure, alerts). Result: requests issued,
resulting chart state, whether an alert was raised. -/
def compareStocks (cur : Option String) (cmpValue : String) (days : ℕ)
    (fetchResult : Except Unit Comparison) (st : ChartState) :
    List Request × ChartState × Bool :=
  match cur with
  | none => ([], st, true)
  | some s =>
    if cmpValue = "" then ([], st, true)
    else
      match fetchResult with
      | .error _ => ([Request.compare s cmpValue days], st, true)
      | .ok _ => ([Request.compare s cmpValue days], displayComparisonState st, false)

/-! ## Company-list load and period change (script.js lines 28-32, 105-111,
151-159) -/

/-- The two fetches `loadStockData(symbol)` issues (lines 156-159): the
series for the selected period and the summary. -/
def loadStockDataRequests (symbol : String) (days : ℕ) : List Request :=
  [Request.data symbol days, Request.summary symbol]

/-- App selection state relevant to company-list load: `currentStock`. -/
structure AppState where
  currentStock : Option String
deriving DecidableEq, Repr

/-- The synchronous prefix of `loadStockData(symbol)` (lines 151-159):
set `currentStock`, issue both fetches. -/
def loadStockDataStart (symbol : String) (days : ℕ) (st : AppState) :
    AppState × List Request :=
  ({ st with currentStock := some symbol }, loadStockDataRequests symbol days)

/-- `displayCompanies` tail (lines 105-111): with a non-empty list the first
rendered `.company-item` is clicked, whose handler calls
`loadStockData(company.symbol)` for the first company. -/
def displayCompanies (companies : List Company) (days : ℕ) (st : AppState) :
    AppState × List Request :=
  match companies with
  | [] => (st, [])
  | c :: _ => loadStockDataStart c.symbol days st

/-- The `timePeriod` change listener (lines 28-32): if a stock is selected,
call `loadStockData(currentStock)`; the requests that issues. -/
def periodChangeHandler (cur : Option String) (days : ℕ) : List Request :=
  match cur with
  | none => []
  | some s => loadStockDataRequests s days

/-! ## Helper lemmas -/

/-- The empty pattern is a substring of every character list. -/
lemma hasSubstrChars_nil (l : List Char) : hasSubstrChars [] l = true := by
  cases l with
  | nil => rfl
  | cons c cs => simp [hasSubstrChars, hasPrefixChars]

/-- Every string contains the empty search term. -/
lemma containsCI_empty (hay : String) : containsCI hay "" = true := by
  show hasSubstrChars (toLowerChars ("" : String).toList) (toLowerChars hay.toList) = true
  have h : toLowerChars ("" : String).toList = ([] : List Char) := by decide
  rw [h]
  exact hasSubstrChars_nil _

/-- Destroying the chart of a sane slot leaves it empty. -/
lemma destroyIfLive_of_slotOk {v : Option ℕ} {live : List ℕ} (h : slotOk v live) :
    destroyIfLive v live = [] := by
  rcases h with h | h
  · subst h
    cases v <;> simp [destroyIfLive]
  · subst h
    cases v with
    | none => rfl
    | some id => simp [destroyIfLive]

/-- A sane slot holds at most one live chart. -/
lemma slotOk_length {v : Option ℕ} {live : List ℕ} (h : slotOk v live) :
    live.length ≤ 1 := by
  rcases h with h | h <;> subst h
  · simp
  · cases v <;> simp

/-- Under the slot invariant, `updateCharts` replaces the price and returns
charts with one fresh chart each and advances the id counter. -/
lemma updateCharts_eq {st : ChartState} (h : goodChartState st) :
    updateCharts st =
      { st with priceVar := some st.nextId
                livePrice := [st.nextId]
                returnsVar := some (st.nextId + 1)
                liveReturns := [st.nextId + 1]
                nextId := st.nextId + 2 } := by
  obtain ⟨hp, hr, _⟩ := h
  simp [updateCharts, updateStep1, updateStep2, updateStep3, updateStep4,
    destroyIfLive_of_slotOk hp, destroyIfLive_of_slotOk hr]

/-- `updateCharts` preserves the slot invariant. -/
lemma goodChartState_updateCharts {st : ChartState} (h : goodChartState st) :
    goodChartState (updateCharts st) := by
  rw [updateCharts_eq h]
  exact ⟨Or.inr rfl, Or.inr rfl, h.2.2⟩

/-- The slot invariant survives any number of `updateCharts` calls. -/
lemma goodChartState_iterate (st : ChartState) (h : goodChartState st) :
    ∀ k, goodChartState (updateCharts^[k] st) := by
  intro k
  induction k with
  | zero => simpa using h
  | succ n ih =>
    rw [Function.iterate_succ_apply']
    exact goodChartState_updateCharts ih

/-- At every observable instant inside one `updateCharts` call started from
a sane state, each slot holds at most one live chart. -/
lemma updateChartsTrace_counts {st : ChartState} (h : goodChartState st) :
    ∀ st2 ∈ updateChartsTrace st,
      st2.livePrice.length ≤ 1 ∧ st2.liveReturns.length ≤ 1 := by
  obtain ⟨hp, hr, hc⟩ := h
  intro st2 hst2
  simp only [updateChartsTrace, List.mem_cons, List.not_mem_nil, or_false] at hst2
  rcases hst2 with rfl | rfl | rfl | rfl
  · constructor
    · simp [updateStep1, destroyIfLive_of_slotOk hp]
    · exact slotOk_length hr
  · constructor
    · simp [updateStep2, updateStep1, destroyIfLive_of_slotOk hp]
    · exact slotOk_length hr
  · constructor
    · simp [updateStep3, updateStep2, updateStep1, destroyIfLive_of_slotOk hp]
    · simp [updateStep3, updateStep2, updateStep1, destroyIfLive_of_slotOk hr]
  · rw [updateCharts_eq ⟨hp, hr, hc⟩]
    constructor <;> simp

/-! ## The claims -/

/-- C1 counterexample: with a successful series fetch and a failed summary
fetch, `loadStockData` renders no charts at all — the shared `catch`
replaces the stock panel with an inline error message instead of rendering
charts with a summary placeholder. -/
theorem loadStockDataJoin_partial_cex :
    (loadStockDataJoin (.ok [⟨"2024-01-01", 100, none, none⟩]) (.error ())).chartsRendered
        = none ∧
    (loadStockDataJoin (.ok [⟨"2024-01-01", 100, none, none⟩]) (.error ())).errorShown
        = true :=
  ⟨rfl, rfl⟩

/-- C1 (amended): `loadStockData` joins the concurrently issued series and
summary fetches with an all-succeed join (`Promise.all` in one
`try/catch`): both fetches must resolve for the view to update, and any
single failure routes to the catch branch, which shows an inline error and
renders nothing. -/
theorem loadStockDataJoin_all_succeed :
    (∀ (d : List StockPoint) (s : StockSummary),
        loadStockDataJoin (.ok d) (.ok s) = ⟨some d, some s, false⟩) ∧
    (∀ d : List StockPoint,
        loadStockDataJoin (.ok d) (.error ()) = ⟨none, none, true⟩) ∧
    (∀ s : StockSummary,
        loadStockDataJoin (.error ()) (.ok s) = ⟨none, none, true⟩) ∧
    loadStockDataJoin (.error ()) (.error ()) = ⟨none, none, true⟩ :=
  ⟨fun _ _ => rfl, fun _ => rfl, fun _ => rfl, rfl⟩

/-- C2: `loadStockData` commits a resolved fetch with no staleness guard:
on the trace select "A"; select "B"; B's fetches resolve; A's fetches
resolve, the final view renders A's data although the current stock is B —
the stale resolution is not discarded, contradicting the required guard. -/
theorem staleCommit_overwrites_view :
    runDash ⟨none, none⟩
        [.select "A", .select "B", .fetchResolved "B", .fetchResolved "A"] =
      ⟨some "B", some "A"⟩ ∧
    (runDash ⟨none, none⟩
        [.select "A", .select "B", .fetchResolved "B", .fetchResolved "A"]).renderedSymbol ≠
      (runDash ⟨none, none⟩
        [.select "A", .select "B", .fetchResolved "B", .fetchResolved "A"]).currentStock := by
  constructor
  · rfl
  · decide

/-- C3: starting from any sane chart state (in particular the initial
page state), after N ≥ 1 consecutive `updateCharts` calls exactly one live
price chart and one live returns chart exist, and at every observable
instant inside each call — the old chart is destroyed before the new one is
constructed — no slot ever holds two live charts. -/
theorem updateCharts_lifecycle (st : ChartState) (N : ℕ)
    (hgood : goodChartState st) (hN : 1 ≤ N) :
    (updateCharts^[N] st).livePrice.length = 1 ∧
    (updateCharts^[N] st).liveReturns.length = 1 ∧
    (∀ k, k < N → ∀ st2 ∈ updateChartsTrace (updateCharts^[k] st),
        st2.livePrice.length ≤ 1 ∧ st2.liveReturns.length ≤ 1) := by
  obtain ⟨m, rfl⟩ := Nat.exists_eq_succ_of_ne_zero (Nat.one_le_iff_ne_zero.mp hN)
  refine ⟨?_, ?_, ?_⟩
  · rw [Function.iterate_succ_apply',
      updateCharts_eq (goodChartState_iterate st hgood m)]
    rfl
  · rw [Function.iterate_succ_apply',
      updateCharts_eq (goodChartState_iterate st hgood m)]
    rfl
  · intro k _ st2 hst2
    exact updateChartsTrace_counts (goodChartState_iterate st hgood k) st2 hst2

/-- Witness for C3: one `updateCharts` call from the initial page state. -/
theorem updateCharts_lifecycle_witness :
    goodChartState initChartState ∧ 1 ≤ 1 ∧
      ((updateCharts^[1] initChartState).livePrice.length = 1 ∧
       (updateCharts^[1] initChartState).liveReturns.length = 1 ∧
       (∀ k, k < 1 → ∀ st2 ∈ updateChartsTrace (updateCharts^[k] initChartState),
           st2.livePrice.length ≤ 1 ∧ st2.liveReturns.length ≤ 1)) :=
  ⟨by decide, by decide,
    updateCharts_lifecycle initChartState 1 (by decide) (by decide)⟩

/-- C4: for a series with non-zero first element, every normalized entry is
`(price[i] - price[0]) / price[0] * 100`, the first normalized entry is 0,
and the two scenario series evaluate as the spec states. -/
theorem normalizeForComparison_spec :
    (∀ (p0 : ℚ) (rest : List ℚ), p0 ≠ 0 →
      (∀ i : ℕ, (normalizeForComparison (p0 :: rest))[i]? =
          ((p0 :: rest)[i]?).map (fun p => (p - p0) / p0 * 100)) ∧
      (normalizeForComparison (p0 :: rest)).head? = some 0) ∧
    normalizeForComparison [100, 110, 90] = [0, 10, -10] ∧
    normalizeForComparison [50, 55, 60] = [0, 10, 20] := by
  refine ⟨?_, by norm_num [normalizeForComparison], by norm_num [normalizeForComparison]⟩
  intro p0 rest _
  constructor
  · intro i
    simp only [normalizeForComparison, List.getElem?_map]
  · simp [normalizeForComparison]

/-- Witness for C4: the scenario series `[100, 110, 90]`. -/
theorem normalizeForComparison_spec_witness :
    (100 : ℚ) ≠ 0 ∧
      (normalizeForComparison ((100 : ℚ) :: [110, 90])).head? = some 0 :=
  ⟨by norm_num, (normalizeForComparison_spec.1 100 [110, 90] (by norm_num)).2⟩

/-- C5: the empty filter shows every company; a filter `x` shows exactly
the companies whose name, stripped symbol or sector contains `x`
case-insensitively; and on the two scenario companies the filter "infy"
yields exactly the INFY.NS company. -/
theorem filterCompanies_spec :
    (∀ cs : List Company, filterCompanies "" cs = cs) ∧
    (∀ (x : String) (cs : List Company) (c : Company),
        c ∈ filterCompanies x cs ↔ c ∈ cs ∧
          (containsCI c.name x = true ∨ containsCI (stripNS c.symbol) x = true ∨
           containsCI c.sector x = true)) ∧
    filterCompanies "infy"
        [⟨"TCS.NS", "TCS", "IT"⟩, ⟨"INFY.NS", "Infosys", "IT"⟩] =
      [⟨"INFY.NS", "Infosys", "IT"⟩] := by
  refine ⟨?_, ?_, by decide⟩
  · intro cs
    apply List.filter_eq_self.mpr
    intro c _
    simp [matchesSearch, containsCI_empty]
  · intro x cs c
    simp [filterCompanies, List.mem_filter, matchesSearch]
    exact fun _ => or_assoc

/-- C6: the performance differential is `performance[stockA] -
performance[stockB]`, and swapping the two stocks negates it. -/
theorem performanceDifferential_spec :
    ∀ c : Comparison,
      performanceDifferential c =
        c.performance c.stocks.1 - c.performance c.stocks.2 ∧
      performanceDifferential (swapStocks c) = - performanceDifferential c := by
  intro c
  refine ⟨rfl, ?_⟩
  simp [performanceDifferential, swapStocks]

/-- C7 counterexample: with a stock selected, the period-change handler
does reload the symbol's summary — `Request.summary` is among the requests
it issues, contradicting the claim that only the series is reloaded. -/
theorem periodChange_reloads_summary_cex :
    Request.summary "TCS.NS" ∈ periodChangeHandler (some "TCS.NS") 30 := by
  decide

/-- C7 (amended): with a stock selected, the period-change handler calls
`loadStockData`, which reloads both that symbol's series (for the new
period) and its summary — but not the company list; with no stock selected
it issues nothing. -/
theorem periodChange_requests :
    (∀ (s : String) (days : ℕ),
        periodChangeHandler (some s) days =
          [Request.data s days, Request.summary s]) ∧
    (∀ (s : String) (days : ℕ),
        Request.companies ∉ periodChangeHandler (some s) days) ∧
    (∀ days : ℕ, periodChangeHandler none days = []) := by
  refine ⟨fun _ _ => rfl, ?_, fun _ => rfl⟩
  intro s days
  simp [periodChangeHandler, loadStockDataRequests]

/-- C8: the returns series has one entry per point, each the point's
`daily_return` scaled to percent, with an absent `daily_return` rendered
as 0 (a present 0 also renders as 0, so JS truthiness agrees with the
spec's convention). -/
theorem toReturnSeries_spec :
    ∀ points : List StockPoint,
      toReturnSeries points =
        points.map (fun p => p.daily_return.getD 0 * 100) ∧
      (toReturnSeries points).length = points.length := by
  intro points
  constructor
  · unfold toReturnSeries
    apply List.map_congr_left
    intro p _
    cases h : p.daily_return with
    | none => simp
    | some r =>
      by_cases hr : r = 0 <;> simp [hr]
  · simp [toReturnSeries]

/-- C9: after a company-list load with a non-empty array,
`displayCompanies` clicks the first rendered company, so `currentStock`
becomes the first company's symbol and its series and summary fetches are
issued; with an empty array nothing is selected or fetched. -/
theorem displayCompanies_selects_first :
    (∀ (c : Company) (cs : List Company) (days : ℕ) (st : AppState),
        displayCompanies (c :: cs) days st =
          (⟨some c.symbol⟩, [Request.data c.symbol days, Request.summary c.symbol])) ∧
    (∀ (days : ℕ) (st : AppState), displayCompanies [] days st = (st, [])) :=
  ⟨fun _ _ _ _ => rfl, fun _ _ => rfl⟩

/-- C10: if no stock is selected or the comparison dropdown holds the empty
"None" value, `compareStocks` issues no request, leaves the chart state
(comparison panel included) unchanged, and only alerts the user. -/
theorem compareStocks_guard (cur : Option String) (cmpValue : String)
    (days : ℕ) (fr : Except Unit Comparison) (st : ChartState)
    (h : cur = none ∨ cmpValue = "") :
    compareStocks cur cmpValue days fr st = ([], st, true) := by
  rcases h with h | h
  · subst h; rfl
  · subst h
    cases cur with
    | none => rfl
    | some s => simp [compareStocks]

/-- Witness for C10: no stock selected at the initial chart state. -/
theorem compareStocks_guard_witness :
    ((none : Option String) = none ∨ "RELIANCE.NS" = "") ∧
      compareStocks none "RELIANCE.NS" 30 (.error ()) initChartState =
        ([], initChartState, true) :=
  ⟨Or.inl rfl,
    compareStocks_guard none "RELIANCE.NS" 30 (.error ()) initChartState (Or.inl rfl)⟩

end StockDash
